import Mathlib

/-! Shallow embedding of the goit-pythonweb-hw-12 contact-book service
(src/database/models.py, src/repository/contacts.py, src/repository/users.py,
src/services/contacts.py, src/services/users.py, src/services/auth.py,
src/api/auth.py) together with theorems checking the design document
against it.

Database tables are embedded as Lists of records; SQLAlchemy queries become
List filters; raised exceptions become `Except` errors.  Python `date`
values are a year/month/day structure with Gregorian day arithmetic for
`timedelta` addition.
-/

namespace Hw12

/-- Python `datetime.date`: a Gregorian calendar date. -/
structure PyDate where
  year : Int
  month : Nat
  day : Nat
deriving DecidableEq

/-- Gregorian leap-year rule (as used by Python's `datetime`). -/
def PyDate.isLeap (y : Int) : Bool :=
  (y % 4 == 0 && y % 100 != 0) || y % 400 == 0

/-- Number of days in a month of a given year. -/
def PyDate.daysInMonth (y : Int) (m : Nat) : Nat :=
  if m == 2 then (if PyDate.isLeap y then 29 else 28)
  else if m == 4 || m == 6 || m == 9 || m == 11 then 30
  else 31

/-- The calendar day after `d`. -/
def PyDate.nextDay (d : PyDate) : PyDate :=
  if d.day < PyDate.daysInMonth d.year d.month then
    { d with day := d.day + 1 }
  else if d.month < 12 then
    { year := d.year, month := d.month + 1, day := 1 }
  else
    { year := d.year + 1, month := 1, day := 1 }

/-- Embeds `d + timedelta(days=n)` for a non-negative day count
(the only way the repository calls it: the API bounds `days >= 1`). -/
def PyDate.addDays (d : PyDate) : Nat → PyDate
  | 0 => d
  | n + 1 => PyDate.nextDay (PyDate.addDays d n)

/-- Is `pat` a leading segment of `s`? (Helper for substring search.) -/
def leadsList : List Char → List Char → Bool
  | [], _ => true
  | _ :: _, [] => false
  | a :: as, b :: bs => a == b && leadsList as bs

/-- Does `pat` occur contiguously inside `s`?  (Helper for substring search.) -/
def occursIn (pat : List Char) : List Char → Bool
  | [] => leadsList pat []
  | c :: rest => leadsList pat (c :: rest) || occursIn pat rest

/-- SQLAlchemy `column.contains(pat)` (SQL `LIKE %pat%`): `pat` is a
substring of `s`; the empty pattern matches everything. -/
def strContains (s pat : String) : Bool :=
  occursIn pat.toList s.toList

/-- Embeds `UserRole` enum from src/database/models.py. -/
inductive UserRole
  | user
  | admin
deriving DecidableEq

/-- Row of the `users` table (src/database/models.py, class User). -/
structure User where
  id : Nat
  username : String
  email : String
  hashed_password : String
  avatar : Option String := none
  confirmed : Bool := false
  role : UserRole := UserRole.user
deriving DecidableEq

/-- Row of the `contacts` table (src/database/models.py, class Contact).
`created_at` / `updated_at` are server-assigned timestamps irrelevant to
every property below and are omitted. -/
structure Contact where
  id : Nat
  name : String
  surname : String
  email : String
  phone : String
  birthday : PyDate
  info : Option String := none
  user_id : Nat
deriving DecidableEq

/-- Embeds `ContactModel` request schema (src/schemas.py): contact data without
id/owner; the API always supplies every field, so none is optional here. -/
structure ContactModel where
  name : String
  surname : String
  email : String
  phone : String
  birthday : PyDate
  info : Option String := none
deriving DecidableEq

/-- Errors surfaced by the embedded code.  `http` variants are the
`HTTPException`s the source raises deliberately; the remaining variants
are Python exceptions that no handler in the source catches. -/
inductive ApiError
  /-- HTTP 409 "User with this email already exists" (src/api/auth.py). -/
  | userExistsEmail
  /-- HTTP 409 "User with this username already exists" (src/api/auth.py). -/
  | userExistsUsername
  /-- HTTP 401 "Invalid username or password" (src/api/auth.py). -/
  | invalidCredentials
  /-- HTTP 401 "Email address not confirmed" (src/api/auth.py). -/
  | emailNotConfirmed
  /-- HTTP 400 "Verification error" (src/api/auth.py). -/
  | verificationError
  /-- HTTP 400 "Your email address is not confirmed" (reset request route). -/
  | resetEmailNotConfirmed
  /-- HTTP 400 "Invalid or expired token" (confirm reset route). -/
  | invalidOrExpiredToken
  /-- HTTP 404 "User with this email was not found" (confirm reset route). -/
  | resetUserNotFound
  /-- HTTP 422 raised by get_email_from_token (src/services/auth.py). -/
  | emailTokenUnprocessable
  /-- HTTP 422 "Wrong token" raised by get_password_from_token. -/
  | passwordTokenUnprocessable
  /-- HTTP 400 conflict raised by ContactService.create_contact, naming the
  offending email and phone (src/services/contacts.py). -/
  | contactExists (email : String) (phone : String)
deriving DecidableEq

/-- HTTP status code of each deliberately raised `HTTPException`,
transcribed from the source. -/
def ApiError.status : ApiError → Nat
  | .userExistsEmail => 409
  | .userExistsUsername => 409
  | .invalidCredentials => 401
  | .emailNotConfirmed => 401
  | .verificationError => 400
  | .resetEmailNotConfirmed => 400
  | .invalidOrExpiredToken => 400
  | .resetUserNotFound => 404
  | .emailTokenUnprocessable => 422
  | .passwordTokenUnprocessable => 422
  | .contactExists _ _ => 400

/-- A Python exception escaping an embedded operation: either an
`HTTPException` raised on purpose, or an exception no handler catches. -/
inductive PyExc
  /-- A deliberate `HTTPException`. -/
  | http (e : ApiError)
  /-- Embeds `KeyError` from a missing dict key - uncaught where it occurs. -/
  | keyError (key : String)
  /-- Embeds `AttributeError` from a missing attribute - uncaught. -/
  | attributeError (attr : String)
  /-- Embeds `IntegrityError`: the database rejects a commit that violates a
  unique constraint declared in src/database/models.py - uncaught. -/
  | integrityError
deriving DecidableEq

namespace ContactRepository

/-- Embeds `get_contacts` (src/repository/contacts.py lines 15-31): select
contacts of `user` whose name/surname/email contain the given substrings,
with `offset skip` and `limit`. -/
def get_contacts (name surname email : String) (skip limit : Nat)
    (user : User) (contacts : List Contact) : List Contact :=
  ((contacts.filter (fun c =>
      c.user_id == user.id
        && strContains c.name name
        && strContains c.surname surname
        && strContains c.email email)).drop skip).take limit

/-- Embeds `get_contact_by_id` (lines 33-39): the contact with this id belonging
to `user`, if any. -/
def get_contact_by_id (contact_id : Nat) (user : User)
    (contacts : List Contact) : Option Contact :=
  contacts.find? (fun c => c.id == contact_id && c.user_id == user.id)

/-- Autoincrement primary key assigned by the database on insert. -/
def freshId (contacts : List Contact) : Nat :=
  (contacts.map Contact.id).foldr max 0 + 1

/-- Does inserting a row with this email/phone violate the `unique=True`
constraints on `Contact.email` and `Contact.phone`
(src/database/models.py lines 55-56)?  The constraints are global: they
look at every row of the table, not only the acting user's rows. -/
def uniqueViolation (email phone : String) (contacts : List Contact) : Bool :=
  contacts.any (fun c => c.email == email || c.phone == phone)

/-- Embeds `create_contact` (lines 41-49): build the row owned by `user` and
commit; the commit enforces the table's unique constraints. -/
def create_contact (body : ContactModel) (user : User)
    (contacts : List Contact) : Except PyExc (Contact × List Contact) :=
  let contact : Contact :=
    { id := freshId contacts
      name := body.name
      surname := body.surname
      email := body.email
      phone := body.phone
      birthday := body.birthday
      info := body.info
      user_id := user.id }
  if uniqueViolation body.email body.phone contacts then
    .error .integrityError
  else
    .ok (contact, contacts ++ [contact])

/-- Embeds `update_contact` (lines 51-71): fetch via `get_contact_by_id`; when
present overwrite the supplied fields and commit (the commit again
enforces the unique constraints against the other rows). -/
def update_contact (contact_id : Nat) (body : ContactModel) (user : User)
    (contacts : List Contact) :
    Except PyExc (Option Contact × List Contact) :=
  match get_contact_by_id contact_id user contacts with
  | none => .ok (none, contacts)
  | some c =>
    let c' : Contact :=
      { c with
          name := body.name
          surname := body.surname
          email := body.email
          phone := body.phone
          birthday := body.birthday
          info := body.info }
    if contacts.any (fun x =>
        x.id != c.id && (x.email == body.email || x.phone == body.phone)) then
      .error .integrityError
    else
      .ok (some c', contacts.map (fun x => if x.id == c.id then c' else x))

/-- Embeds `remove_contact` (lines 73-85): fetch via `get_contact_by_id`; when
present delete that row. -/
def remove_contact (contact_id : Nat) (user : User)
    (contacts : List Contact) : Option Contact × List Contact :=
  match get_contact_by_id contact_id user contacts with
  | none => (none, contacts)
  | some c => (some c, contacts.filter (fun x => x.id != c.id))

/-- Embeds `is_contact_exists` (lines 87-102): does `user` already own a contact
with this email or this phone? -/
def is_contact_exists (email phone : String) (user : User)
    (contacts : List Contact) : Bool :=
  contacts.any (fun c =>
    c.user_id == user.id && (c.email == email || c.phone == phone))

/-- Stable insertion into a list sorted ascending by `key`. -/
def insortBy (key : Contact → Nat) (c : Contact) :
    List Contact → List Contact
  | [] => [c]
  | x :: xs => if key c ≤ key x then c :: x :: xs else x :: insortBy key c xs

/-- Stable ascending sort by `key` (`ORDER BY ... ASC`). -/
def sortBy (key : Contact → Nat) : List Contact → List Contact
  | [] => []
  | x :: xs => insortBy key x (sortBy key xs)

/-- The `WHERE` filter of `get_upcoming_birthdays` (lines 111-129) on one
contact.  It compares only `date_part("day", ...)` values - the day of
month of the birthday, of today and of the window end; months never enter
the comparison. -/
def birthdayFilter (todayDay endDay : Nat) (c : Contact) : Bool :=
  (todayDay ≤ c.birthday.day && c.birthday.day ≤ endDay)
    || (endDay < todayDay
        && (c.birthday.day ≥ todayDay || c.birthday.day ≤ endDay))

/-- Embeds `get_upcoming_birthdays` (lines 104-134): `today` is `date.today()`
passed explicitly; `end_date = today + timedelta(days)`; rows of `user`
passing the day-of-month window filter, ordered by day of month
ascending. -/
def get_upcoming_birthdays (days : Nat) (user : User) (today : PyDate)
    (contacts : List Contact) : List Contact :=
  let end_date := today.addDays days
  sortBy (fun c => c.birthday.day)
    (contacts.filter (fun c =>
      c.user_id == user.id && birthdayFilter today.day end_date.day c))

end ContactRepository

namespace ContactService

/-- Embeds `ContactService.create_contact` (src/services/contacts.py lines
21-40): reject with a conflict naming the email and phone when the user
already owns a matching contact, otherwise delegate to the repository. -/
def create_contact (body : ContactModel) (user : User)
    (contacts : List Contact) : Except PyExc (Contact × List Contact) :=
  if ContactRepository.is_contact_exists body.email body.phone user contacts then
    .error (.http (.contactExists body.email body.phone))
  else
    ContactRepository.create_contact body user contacts

end ContactService

/-- Settings (src/conf/config.py): the one field the token code reads,
with its default from config.py line 44.  Instances other than the
default model a deployment that overrides `JWT_EXPIRATION_SECONDS` in the
environment. -/
structure Settings where
  JWT_EXPIRATION_SECONDS : Int := 3600
deriving DecidableEq

/-- The settings produced when the environment sets no override. -/
def defaultSettings : Settings := {}

/-- Embeds `UserCreate` request schema (src/schemas.py). -/
structure UserCreate where
  username : String
  email : String
  password : String
  role : UserRole
deriving DecidableEq

/-- The claims dict handed to the token builders.  The source only ever
stores the keys "sub" and "password" in it (src/api/auth.py lines 124 and
226, src/services/email.py line 41). -/
structure Claims where
  sub : Option String := none
  password : Option String := none
deriving DecidableEq

/-- Decoded JWT payload: the caller's claims plus the `exp` and `iat`
timestamps (seconds since the epoch) that `_build_token` adds. -/
structure TokenPayload where
  sub : Option String := none
  password : Option String := none
  exp : Int
  iat : Int
deriving DecidableEq

/-- A token string as jose.jwt sees it: either a token this service
signed with its secret (decoding recovers the payload unchanged) or any
other string, which fails the signature/structure check. -/
inductive Token
  | signed (payload : TokenPayload)
  | malformed
deriving DecidableEq

namespace Hash

/-- Modelled from the spec: the Credential Hasher of design section 4.1.
The bcrypt implementation lives in the external passlib library, not in
this repository; it is modelled as a deterministic injective tagging,
which satisfies the section 4.1 / section 8 contract: `verify(hash(P), P)`
is true and `verify(hash(P), Q)` is false for `Q` different from `P`. -/
def get_password_hash (password : String) : String :=
  "bcrypt$" ++ password

/-- Modelled from the spec: passlib verification against a stored digest
(design section 4.1), for digests produced by `get_password_hash`. -/
def verify_password (plain_password hashed_password : String) : Bool :=
  hashed_password == get_password_hash plain_password

end Hash

namespace AuthService

/-- The single error condition jose.jwt.decode reports to callers: bad
signature, bad structure and passed expiry all raise `JWTError`. -/
inductive JWTError
  | invalid
deriving DecidableEq

/-- jose.jwt.decode with the service's secret and algorithm
(src/services/auth.py): a token this service signed decodes to its
payload unless its expiry has passed; anything else raises JWTError. -/
def jwtDecode (t : Token) (now : Int) : Except JWTError TokenPayload :=
  match t with
  | .malformed => .error .invalid
  | .signed p => if p.exp ≤ now then .error .invalid else .ok p

/-- Embeds `_build_token` (src/services/auth.py lines 53-70): copy the claims
and add `exp = now + expires_delta` and `iat = now`. -/
def _build_token (data : Claims) (expires_delta : Int) (now : Int) :
    TokenPayload :=
  { sub := data.sub
    password := data.password
    exp := now + expires_delta
    iat := now }

/-- Python `x or d` for an optional int `x`: both `None` and `0` are
falsy, so either one selects `d`. -/
def pyOrInt (x : Option Int) (d : Int) : Int :=
  match x with
  | none => d
  | some v => if v == 0 then d else v

/-- Embeds `create_access_token` (lines 73-85):
`timedelta(seconds=expires_delta or settings.JWT_EXPIRATION_SECONDS)`. -/
def create_access_token (data : Claims) (expires_delta : Option Int)
    (cfg : Settings) (now : Int) : TokenPayload :=
  _build_token data (pyOrInt expires_delta cfg.JWT_EXPIRATION_SECONDS) now

/-- Embeds `create_email_token` (lines 182-193): lifetime `timedelta(days=7)`,
i.e. 604800 seconds. -/
def create_email_token (data : Claims) (now : Int) : TokenPayload :=
  _build_token data (7 * 86400) now

/-- Embeds `get_email_from_token` (lines 196-221): decode, read claim "sub",
raise ValueError when it is absent or falsy; both JWTError and ValueError
are caught and turned into the dedicated 422 error. -/
def get_email_from_token (token : Token) (now : Int) :
    Except PyExc String :=
  match jwtDecode token now with
  | .error _ => .error (.http .emailTokenUnprocessable)
  | .ok payload =>
    match payload.sub with
    | none => .error (.http .emailTokenUnprocessable)
    | some email =>
      if email == "" then .error (.http .emailTokenUnprocessable)
      else .ok email

/-- Embeds `get_password_from_token` (lines 224-247): decode, then read
`payload["password"]` by subscript.  The `except` clause on line 243
catches only `JWTError`, so when the claim is missing the `KeyError`
raised by the subscript escapes unhandled. -/
def get_password_from_token (token : Token) (now : Int) :
    Except PyExc String :=
  match jwtDecode token now with
  | .error _ => .error (.http .passwordTokenUnprocessable)
  | .ok payload =>
    match payload.password with
    | some pw => .ok pw
    | none => .error (.keyError "password")

end AuthService

namespace UserRepository

/-- Embeds `get_user_by_id` (src/repository/users.py lines 18-30). -/
def get_user_by_id (user_id : Nat) (users : List User) : Option User :=
  users.find? (fun u => u.id == user_id)

/-- Embeds `get_user_by_username` (lines 32-44). -/
def get_user_by_username (username : String) (users : List User) :
    Option User :=
  users.find? (fun u => u.username == username)

/-- Embeds `get_user_by_email` (lines 46-58). -/
def get_user_by_email (email : String) (users : List User) : Option User :=
  users.find? (fun u => u.email == email)

/-- Autoincrement primary key assigned by the database on insert. -/
def freshUserId (users : List User) : Nat :=
  (users.map User.id).foldr max 0 + 1

/-- Embeds `create_user` (lines 60-79): build the row (`hashed_password` is the
`password` field of the body, which the register route has already
hashed; `confirmed` defaults to false) and commit; the commit enforces
the `unique=True` constraints on `users.username` and `users.email`
(src/database/models.py lines 85-86). -/
def create_user (body : UserCreate) (avatar : Option String)
    (users : List User) : Except PyExc (User × List User) :=
  let u : User :=
    { id := freshUserId users
      username := body.username
      email := body.email
      hashed_password := body.password
      avatar := avatar
      confirmed := false
      role := body.role }
  if users.any (fun x => x.username == body.username || x.email == body.email) then
    .error .integrityError
  else
    .ok (u, users ++ [u])

/-- Embeds `reset_password` (lines 112-121): fetch by id; when present overwrite
`hashed_password` and commit.  This method exists only on
`UserRepository`; `UserService` never gained a wrapper for it. -/
def reset_password (user_id : Nat) (password : String)
    (users : List User) : Option User × List User :=
  match get_user_by_id user_id users with
  | none => (none, users)
  | some u =>
    let u' : User := { u with hashed_password := password }
    (some u', users.map (fun x => if x.id == u.id then u' else x))

end UserRepository

namespace UserService

/-- The avatar the external libgravatar call returns for an email
(src/services/users.py lines 27-32); on any failure the code keeps
`None`.  Modelled as always succeeding - no claim depends on it. -/
def gravatar_image (email : String) : Option String :=
  some ("gravatar/" ++ email)

/-- Embeds `UserService.create_user` (src/services/users.py lines 17-34):
compute the avatar, then delegate to the repository.  `UserService`
defines exactly the methods `create_user`, `get_user_by_id`,
`get_user_by_username`, `get_user_by_email`, `confirmed_email` and
`update_avatar_url` - in particular it has no `reset_password` method. -/
def create_user (body : UserCreate) (users : List User) :
    Except PyExc (User × List User) :=
  UserRepository.create_user body (gravatar_image body.email) users

/-- Embeds `UserService.get_user_by_username` (lines 48-58). -/
def get_user_by_username (username : String) (users : List User) :
    Option User :=
  UserRepository.get_user_by_username username users

/-- Embeds `UserService.get_user_by_email` (lines 60-70). -/
def get_user_by_email (email : String) (users : List User) : Option User :=
  UserRepository.get_user_by_email email users

end UserService

namespace AuthApi

/-- Result of the register route: the HTTP outcome, the user table after
the call, and the recipients of confirmation emails dispatched as
background tasks. -/
structure RegisterOutcome where
  result : Except PyExc User
  users : List User
  emailsSent : List String

/-- Embeds `register_user` (src/api/auth.py lines 58-94): check the email for a
conflict, then the username; hash the password; create the user; dispatch
one confirmation email as a background task. -/
def register_user (user_data : UserCreate) (users : List User) :
    RegisterOutcome :=
  if (UserService.get_user_by_email user_data.email users).isSome then
    { result := .error (.http .userExistsEmail)
      users := users
      emailsSent := [] }
  else if (UserService.get_user_by_username user_data.username users).isSome then
    { result := .error (.http .userExistsUsername)
      users := users
      emailsSent := [] }
  else
    let hashed := Hash.get_password_hash user_data.password
    match UserService.create_user { user_data with password := hashed } users with
    | .error e =>
      { result := .error e, users := users, emailsSent := [] }
    | .ok (new_user, users') =>
      { result := .ok new_user
        users := users'
        emailsSent := [new_user.email] }

/-- Embeds `login_user` (src/api/auth.py lines 97-125): look the user up by
username; unknown username or failed password verification raise the one
INVALID_CREDENTIALS error; an unconfirmed email raises the distinct
EMAIL_NOT_CONFIRMED error; otherwise mint a session token with
`sub = username` and no explicit lifetime.  The returned payload stands
for the encoded token string of the response body. -/
def login_user (username password : String) (users : List User)
    (cfg : Settings) (now : Int) : Except PyExc TokenPayload :=
  match UserService.get_user_by_username username users with
  | none => .error (.http .invalidCredentials)
  | some user =>
    if !(Hash.verify_password password user.hashed_password) then
      .error (.http .invalidCredentials)
    else if !user.confirmed then
      .error (.http .emailNotConfirmed)
    else
      .ok (AuthService.create_access_token { sub := some user.username } none cfg now)

/-- The message body the reset-request route returns, identical in the
user-found and user-absent branches (src/api/auth.py lines 218 and 235). -/
def resetRequestMessage : String :=
  "Check your email for password reset instructions"

/-- Result of the reset-request route: the HTTP outcome, the recipients
of reset emails dispatched as background tasks, and the reset token
minted (if any). -/
structure ResetRequestOutcome where
  result : Except PyExc String
  emailsSent : List String
  mintedToken : Option TokenPayload

/-- Embeds `reset_password_request` (src/api/auth.py lines 193-235): absent user
- same success message, no email; unconfirmed user - 400 error;
confirmed user - pre-hash the new password, mint a reset token via
`create_access_token` with `sub = email` and the hash in the "password"
claim, dispatch one reset email, return the success message. -/
def reset_password_request (email password : String) (users : List User)
    (cfg : Settings) (now : Int) : ResetRequestOutcome :=
  match UserService.get_user_by_email email users with
  | none =>
    { result := .ok resetRequestMessage
      emailsSent := []
      mintedToken := none }
  | some user =>
    if !user.confirmed then
      { result := .error (.http .resetEmailNotConfirmed)
        emailsSent := []
        mintedToken := none }
    else
      let hashed_password := Hash.get_password_hash password
      let reset_token := AuthService.create_access_token
        { sub := some user.email, password := some hashed_password } none cfg now
      { result := .ok resetRequestMessage
        emailsSent := [email]
        mintedToken := some reset_token }

/-- Embeds `confirm_reset_password` (src/api/auth.py lines 238-272): extract the
email and the embedded hash from the token (each accessor raising on
failure), look the user up by email, 404 when absent.  The success path
then calls `user_service.reset_password(user, hashed_password)` - but
`UserService` (src/services/users.py) defines no method named
`reset_password` (only `UserRepository` does), so the attribute lookup
raises an uncaught `AttributeError` before any write happens. -/
def confirm_reset_password (token : Token) (now : Int)
    (users : List User) : Except PyExc (String × List User) :=
  match AuthService.get_email_from_token token now with
  | .error e => .error e
  | .ok email =>
    match AuthService.get_password_from_token token now with
    | .error e => .error e
    | .ok hashed_password =>
      if email == "" || hashed_password == "" then
        .error (.http .invalidOrExpiredToken)
      else
        match UserService.get_user_by_email email users with
        | none => .error (.http .resetUserNotFound)
        | some _user => .error (.attributeError "reset_password")

end AuthApi

/-!  Theorems.  Concrete fixtures used by closed evaluations and by the
witnesses of the universally quantified theorems. -/

instance {ε α : Type} [DecidableEq ε] [DecidableEq α] :
    DecidableEq (Except ε α) := fun a b =>
  match a, b with
  | .error e, .error f =>
    if h : e = f then .isTrue (congrArg Except.error h)
    else .isFalse (fun hh => h (Except.error.inj hh))
  | .ok x, .ok y =>
    if h : x = y then .isTrue (congrArg Except.ok h)
    else .isFalse (fun hh => h (Except.ok.inj hh))
  | .error _, .ok _ => .isFalse (fun hh => Except.noConfusion hh)
  | .ok _, .error _ => .isFalse (fun hh => Except.noConfusion hh)

/-- A registered, confirmed user whose stored digest is the hash of
"oldpw". -/
def alice : User :=
  { id := 1
    username := "alice"
    email := "alice@x.com"
    hashed_password := Hash.get_password_hash "oldpw"
    confirmed := true }

/-- Like `alice` but with the confirmation flag still false. -/
def aliceUnconfirmed : User := { alice with confirmed := false }

/-- CLAIM C10: for every claims payload and configuration, calling
`create_access_token` with `expires_delta = 0` mints exactly the token
minted with no `expires_delta` at all, whose expiry is
`JWT_EXPIRATION_SECONDS` after issue - a zero lifetime argument behaves
like an absent one rather than producing an immediately expired token. -/
theorem create_access_token_zero_delta_uses_default
    (data : Claims) (cfg : Settings) (now : Int) :
    AuthService.create_access_token data (some 0) cfg now
      = AuthService.create_access_token data none cfg now
    ∧ (AuthService.create_access_token data (some 0) cfg now).exp
      = (AuthService.create_access_token data (some 0) cfg now).iat
          + cfg.JWT_EXPIRATION_SECONDS := by
  refine ⟨rfl, ?_⟩
  simp [AuthService.create_access_token, AuthService.pyOrInt,
    AuthService._build_token]

/-- CLAIM C5, counterexample: the reset token minted for the confirmed
user `alice` under the default configuration lives
`JWT_EXPIRATION_SECONDS = 3600` seconds, not the 7 days (604800 seconds)
the claim states. -/
theorem reset_token_lifetime_not_seven_days :
    (AuthApi.reset_password_request "alice@x.com" "newpw" [alice]
        defaultSettings 0).mintedToken.map (fun t => t.exp - t.iat)
      = some 3600
    ∧ (3600 : Int) ≠ 604800 := by
  exact ⟨rfl, by decide⟩

/-- CLAIM C5, amended: every reset token minted by the request route is
built by `create_access_token` with no explicit lifetime, so its `exp`
claim is `JWT_EXPIRATION_SECONDS` (default 3600 seconds, not 7 days)
after its `iat` claim, and it carries `sub` = the user's email and the
pre-hashed new password in the "password" claim. -/
theorem reset_token_shape_and_lifetime
    (email password : String) (users : List User) (user : User)
    (cfg : Settings) (now : Int)
    (hfind : UserService.get_user_by_email email users = some user)
    (hconf : user.confirmed = true) :
    (AuthApi.reset_password_request email password users cfg now).mintedToken
      = some { sub := some user.email
               password := some (Hash.get_password_hash password)
               exp := now + cfg.JWT_EXPIRATION_SECONDS
               iat := now } := by
  unfold AuthApi.reset_password_request
  rw [hfind]
  simp [hconf, AuthService.create_access_token, AuthService.pyOrInt,
    AuthService._build_token]

/-- Witness for the amended C5 theorem at the fixture `alice`. -/
theorem reset_token_shape_and_lifetime_witness :
    (AuthApi.reset_password_request "alice@x.com" "newpw" [alice]
        defaultSettings 0).mintedToken
      = some { sub := some alice.email
               password := some (Hash.get_password_hash "newpw")
               exp := 0 + defaultSettings.JWT_EXPIRATION_SECONDS
               iat := 0 } :=
  reset_token_shape_and_lifetime "alice@x.com" "newpw" [alice] alice
    defaultSettings 0 (by decide) (by decide)

/-- Registration data whose username and email both collide with
`alice`. -/
def bothTakenData : UserCreate :=
  { username := "alice"
    email := "alice@x.com"
    password := "pw123"
    role := UserRole.user }

/-- CLAIM C7, counterexample: for input whose username and email are both
already taken, registration fails with the email-conflict error - not
the username-conflict error the claim states - and performs no write. -/
theorem register_both_taken_fails_on_email_not_username :
    (AuthApi.register_user bothTakenData [alice]).result
      = .error (.http .userExistsEmail)
    ∧ ((AuthApi.register_user bothTakenData [alice]).result
        = .error (.http .userExistsUsername) → False)
    ∧ (AuthApi.register_user bothTakenData [alice]).users = [alice]
    ∧ (AuthApi.register_user bothTakenData [alice]).emailsSent = [] := by
  decide

/-- CLAIM C7, amended: the register route performs its two uniqueness
pre-checks with the email check first: whenever the email is taken it
fails with the email-conflict error (the username check is reached only
when the email is free, and a taken username then yields the
username-conflict error), and in every conflict case no write is
performed and no email dispatched. -/
theorem register_conflict_email_checked_first
    (user_data : UserCreate) (users : List User) :
    ((UserService.get_user_by_email user_data.email users).isSome = true →
      (AuthApi.register_user user_data users).result
        = .error (.http .userExistsEmail)
      ∧ (AuthApi.register_user user_data users).users = users
      ∧ (AuthApi.register_user user_data users).emailsSent = [])
    ∧ ((UserService.get_user_by_email user_data.email users).isSome = false →
       (UserService.get_user_by_username user_data.username users).isSome = true →
      (AuthApi.register_user user_data users).result
        = .error (.http .userExistsUsername)
      ∧ (AuthApi.register_user user_data users).users = users
      ∧ (AuthApi.register_user user_data users).emailsSent = []) := by
  constructor
  · intro h
    unfold AuthApi.register_user
    simp [h]
  · intro h1 h2
    unfold AuthApi.register_user
    simp [h1, h2]

/-- Witness for the amended C7 theorem: both conflict branches evaluated
at concrete inputs (`alice` taken by email; `alice` taken by username
under a fresh email). -/
theorem register_conflict_email_checked_first_witness :
    ((AuthApi.register_user bothTakenData [alice]).result
        = .error (.http .userExistsEmail)
      ∧ (AuthApi.register_user bothTakenData [alice]).users = [alice]
      ∧ (AuthApi.register_user bothTakenData [alice]).emailsSent = [])
    ∧ ((AuthApi.register_user { bothTakenData with email := "fresh@x.com" }
          [alice]).result = .error (.http .userExistsUsername)
      ∧ (AuthApi.register_user { bothTakenData with email := "fresh@x.com" }
          [alice]).users = [alice]
      ∧ (AuthApi.register_user { bothTakenData with email := "fresh@x.com" }
          [alice]).emailsSent = []) :=
  ⟨(register_conflict_email_checked_first bothTakenData [alice]).1 (by decide),
   (register_conflict_email_checked_first
      { bothTakenData with email := "fresh@x.com" } [alice]).2
        (by decide) (by decide)⟩

/-- CLAIM C8: a login with a correct password for an existing but
unconfirmed user fails with the dedicated email-not-confirmed error and
mints no token, while a wrong password or an unknown username yields the
generic invalid-credentials error, a different `ApiError`. -/
theorem login_unconfirmed_fails_distinctly
    (username password : String) (users : List User) (user : User)
    (cfg : Settings) (now : Int)
    (hfind : UserService.get_user_by_username username users = some user)
    (hpw : Hash.verify_password password user.hashed_password = true)
    (hconf : user.confirmed = false) :
    AuthApi.login_user username password users cfg now
      = .error (.http .emailNotConfirmed)
    ∧ ApiError.emailNotConfirmed ≠ ApiError.invalidCredentials
    ∧ (∀ pw2, Hash.verify_password pw2 user.hashed_password = false →
        AuthApi.login_user username pw2 users cfg now
          = .error (.http .invalidCredentials))
    ∧ (∀ uname2 pw2, UserService.get_user_by_username uname2 users = none →
        AuthApi.login_user uname2 pw2 users cfg now
          = .error (.http .invalidCredentials)) := by
  refine ⟨?_, by decide, ?_, ?_⟩
  · unfold AuthApi.login_user
    rw [hfind]
    simp [hpw, hconf]
  · intro pw2 h2
    unfold AuthApi.login_user
    rw [hfind]
    simp [h2]
  · intro uname2 pw2 h2
    unfold AuthApi.login_user
    rw [h2]

/-- Witness for the C8 theorem: `aliceUnconfirmed` logging in with her
correct password "oldpw". -/
theorem login_unconfirmed_fails_distinctly_witness :
    AuthApi.login_user "alice" "oldpw" [aliceUnconfirmed] defaultSettings 0
      = .error (.http .emailNotConfirmed) :=
  (login_unconfirmed_fails_distinctly "alice" "oldpw" [aliceUnconfirmed]
    aliceUnconfirmed defaultSettings 0 (by decide) (by decide) (by decide)).1

/-- CLAIM C9: the reset-request route is an existence oracle only through
side channels the client cannot see: a run against a table holding the
confirmed account and a run against a table without it return the very
same success body, the first dispatching exactly one reset email and the
second none; only a found-but-unconfirmed account fails, with its own
error. -/
theorem reset_request_does_not_leak_existence
    (email password : String) (usersWith usersWithout : List User)
    (user : User) (cfg : Settings) (now : Int)
    (hfound : UserService.get_user_by_email email usersWith = some user)
    (hconf : user.confirmed = true)
    (habsent : UserService.get_user_by_email email usersWithout = none) :
    (AuthApi.reset_password_request email password usersWith cfg now).result
      = .ok AuthApi.resetRequestMessage
    ∧ (AuthApi.reset_password_request email password usersWithout cfg now).result
      = .ok AuthApi.resetRequestMessage
    ∧ (AuthApi.reset_password_request email password usersWith cfg now).emailsSent.length = 1
    ∧ (AuthApi.reset_password_request email password usersWithout cfg now).emailsSent.length = 0
    ∧ (∀ users3 user3,
        UserService.get_user_by_email email users3 = some user3 →
        user3.confirmed = false →
        (AuthApi.reset_password_request email password users3 cfg now).result
          = .error (.http .resetEmailNotConfirmed)) := by
  refine ⟨?_, ?_, ?_, ?_, ?_⟩
  · unfold AuthApi.reset_password_request
    rw [hfound]
    simp [hconf]
  · unfold AuthApi.reset_password_request
    rw [habsent]
  · unfold AuthApi.reset_password_request
    rw [hfound]
    simp [hconf]
  · unfold AuthApi.reset_password_request
    rw [habsent]
    rfl
  · intro users3 user3 h3 hc3
    unfold AuthApi.reset_password_request
    rw [h3]
    simp [hc3]

/-- Witness for the C9 theorem: the confirmed `alice` versus an empty
user table. -/
theorem reset_request_does_not_leak_existence_witness :
    (AuthApi.reset_password_request "alice@x.com" "newpw" [alice]
        defaultSettings 0).result = .ok AuthApi.resetRequestMessage :=
  (reset_request_does_not_leak_existence "alice@x.com" "newpw" [alice] []
    alice defaultSettings 0 (by decide) (by decide) (by decide)).1

/-- A reset token this service signed for `alice`, carrying the
pre-hashed replacement password, unexpired at time 0. -/
def aliceResetToken : Token :=
  .signed { sub := some "alice@x.com"
            password := some (Hash.get_password_hash "newpw")
            exp := 1000
            iat := 0 }

/-- A token that verifies at time 0 but carries no "password" claim. -/
def noPasswordToken : Token :=
  .signed { sub := some "alice@x.com", password := none, exp := 1000, iat := 0 }

/-- A token that verifies at time 0 but carries no "sub" claim. -/
def noSubToken : Token :=
  .signed { sub := none, password := some "h", exp := 1000, iat := 0 }

/-- CLAIM C1 (code bug): on a verifying reset token carrying alice's
email and an embedded pre-hashed password, with alice present in the
user table, the confirm-reset route raises an uncaught `AttributeError`
- `UserService` defines no `reset_password` method (only
`UserRepository` does) - instead of overwriting the stored hash and
reporting success; the stored hash is never written.  Only the
user-absent half of the claim holds: with no matching user the route
fails with the 404 not-found error. -/
theorem confirm_reset_password_attribute_error :
    AuthApi.confirm_reset_password aliceResetToken 0 [alice]
      = .error (.attributeError "reset_password")
    ∧ AuthApi.confirm_reset_password aliceResetToken 0 []
      = .error (.http .resetUserNotFound) := by
  decide

/-- CLAIM C6 (code bug): on a verifying token that lacks the "password"
claim, `get_password_from_token` does not raise its dedicated 422 error:
the subscript `payload["password"]` raises a `KeyError` that the
`except JWTError` clause never catches, so an unhandled exception
escapes.  The email accessor half of the claim holds: a verifying token
without "sub" yields the dedicated 422 error. -/
theorem get_password_from_token_uncaught_keyerror :
    AuthService.get_password_from_token noPasswordToken 0
      = .error (.keyError "password")
    ∧ (∀ e : ApiError,
        AuthService.get_password_from_token noPasswordToken 0
          = .error (.http e) → False)
    ∧ AuthService.get_email_from_token noSubToken 0
      = .error (.http .emailTokenUnprocessable) := by
  refine ⟨rfl, ?_, rfl⟩
  intro e h
  rw [show AuthService.get_password_from_token noPasswordToken 0
        = .error (.keyError "password") from rfl] at h
  exact PyExc.noConfusion (Except.error.inj h)

/-- Owner of no contacts in the C4 fixtures. -/
def userA : User :=
  { id := 10
    username := "anna"
    email := "anna@x.com"
    hashed_password := "h1"
    confirmed := true }

/-- A birthday used by the C4 fixtures. -/
def bobBirthday : PyDate := { year := 1990, month := 5, day := 1 }

/-- The contact data both users try to store. -/
def bobBody : ContactModel :=
  { name := "Bob"
    surname := "Jones"
    email := "bob@x.com"
    phone := "5550100"
    birthday := bobBirthday }

/-- Bob's card as already owned by user 20 (a user other than `userA`). -/
def bobContactOfB : Contact :=
  { id := 1
    name := "Bob"
    surname := "Jones"
    email := "bob@x.com"
    phone := "5550100"
    birthday := bobBirthday
    user_id := 20 }

/-- Bob's card as already owned by `userA` herself. -/
def bobContactOfA : Contact := { bobContactOfB with user_id := 10 }

/-- CLAIM C4 (code bug): when a different user (id 20) already owns a
contact with the same email and phone, `userA`'s create passes the
owner-scoped duplicate check - so no conflict error is raised - but the
insert then violates the global `unique=True` constraints on
`Contact.email` / `Contact.phone` declared in src/database/models.py, so
creation fails with an uncaught `IntegrityError` instead of succeeding as
the claim states.  The same-owner half of the claim holds: a second
identical contact for `userA` is rejected with the conflict error naming
the offending email and phone, and nothing is created. -/
theorem create_contact_cross_owner_unique_clash :
    ContactRepository.is_contact_exists "bob@x.com" "5550100" userA
        [bobContactOfB] = false
    ∧ ContactService.create_contact bobBody userA [bobContactOfB]
      = .error .integrityError
    ∧ ContactService.create_contact bobBody userA [bobContactOfA]
      = .error (.http (.contactExists "bob@x.com" "5550100")) := by
  decide

/-- Owner of the birthday-window fixtures. -/
def carol : User :=
  { id := 30
    username := "carol"
    email := "carol@x.com"
    hashed_password := "h3"
    confirmed := true }

/-- December 28th, the "today" of the claim's window example. -/
def dec28 : PyDate := { year := 2025, month := 12, day := 28 }

/-- Carol's contact born January 3rd (inside the wrapped window). -/
def bornJan3 : Contact :=
  { id := 101
    name := "Jan"
    surname := "Early"
    email := "jan@x.com"
    phone := "1111111"
    birthday := { year := 1995, month := 1, day := 3 }
    user_id := 30 }

/-- Carol's contact born December 20th (before the window). -/
def bornDec20 : Contact :=
  { id := 102
    name := "Dee"
    surname := "Late"
    email := "dee@x.com"
    phone := "2222222"
    birthday := { year := 1988, month := 12, day := 20 }
    user_id := 30 }

/-- Carol's contact born March 30th - months outside the window, but its
day of month (30) falls between 28 and 31. -/
def bornMar30 : Contact :=
  { id := 103
    name := "Mar"
    surname := "Far"
    email := "mar@x.com"
    phone := "3333333"
    birthday := { year := 1990, month := 3, day := 30 }
    user_id := 30 }

/-- Modelled from the spec: the design-level window test of section 4.5 -
a birthday is selected exactly when its month-and-day (year ignored)
equals the month-and-day of `today + k` for some `0 ≤ k ≤ days`, the
closed circular window. -/
def specBirthdayInWindow (today : PyDate) (days : Nat)
    (bmonth bday : Nat) : Bool :=
  (List.range (days + 1)).any (fun k =>
    (today.addDays k).month == bmonth && (today.addDays k).day == bday)

/-- CLAIM C3 (code bug): with today = Dec 28 and a 10-day window (ending
Jan 7), the repository query returns Carol's contact born March 30
alongside the Jan 3 one, because its filter compares only
`date_part("day", ...)` - the day of month - and never the month; the
design-level window (`specBirthdayInWindow`) excludes March 30 while
agreeing that Jan 3 is in and Dec 20 is out.  The claim's own Dec 28
examples are reproduced, but "exactly the contacts whose month-and-day
lies in the window" is false. -/
theorem upcoming_birthdays_ignores_month :
    ContactRepository.get_upcoming_birthdays 10 carol dec28
        [bornJan3, bornDec20, bornMar30]
      = [bornJan3, bornMar30]
    ∧ specBirthdayInWindow dec28 10 3 30 = false
    ∧ specBirthdayInWindow dec28 10 1 3 = true
    ∧ specBirthdayInWindow dec28 10 12 20 = false := by
  decide

/-- Stable insertion neither adds nor drops elements. -/
theorem mem_insortBy (key : Contact → Nat) (c x : Contact)
    (l : List Contact) :
    x ∈ ContactRepository.insortBy key c l ↔ x = c ∨ x ∈ l := by
  induction l with
  | nil => simp [ContactRepository.insortBy]
  | cons a as ih =>
    simp only [ContactRepository.insortBy]
    split
    · simp [List.mem_cons]
    · simp only [List.mem_cons, ih]
      tauto

/-- Sorting neither adds nor drops elements. -/
theorem mem_sortBy (key : Contact → Nat) (l : List Contact) (x : Contact) :
    x ∈ ContactRepository.sortBy key l ↔ x ∈ l := by
  induction l with
  | nil => simp [ContactRepository.sortBy]
  | cons a as ih =>
    simp [ContactRepository.sortBy, mem_insortBy, ih, List.mem_cons]

/-- In a table whose primary keys are distinct, two distinct rows have
distinct ids. -/
theorem id_injective_of_nodup {contacts : List Contact}
    (hids : (contacts.map Contact.id).Nodup)
    {c c0 : Contact} (hc : c ∈ contacts) (hc0 : c0 ∈ contacts)
    (hne : c ≠ c0) : c.id ≠ c0.id := by
  intro he
  exact hne (List.inj_on_of_nodup_map hids hc hc0 he)

/-- CLAIM C2: every Contact Directory operation is scoped to the acting
principal.  Search and upcoming-birthdays return only the user's rows;
get-by-id only ever yields a row of the user; a true exists-check is
witnessed by a row of the user; create inserts a row owned by the user
and leaves every other row in place; get/update/delete on an id that
only rows of other users carry return not-found and leave the table
untouched; and no successful update or delete ever removes or rewrites a
row owned by another user (given, as the database guarantees, distinct
primary keys). -/
theorem contact_directory_owner_scoped
    (user : User) (contacts : List Contact)
    (name surname email phone : String) (skip limit cid days : Nat)
    (body : ContactModel) (today : PyDate)
    (hids : (contacts.map Contact.id).Nodup)
    (hforeign : ∀ c ∈ contacts, c.id = cid → c.user_id ≠ user.id) :
    (∀ c ∈ ContactRepository.get_contacts name surname email skip limit
        user contacts, c.user_id = user.id)
    ∧ (∀ c ∈ ContactRepository.get_upcoming_birthdays days user today
        contacts, c.user_id = user.id)
    ∧ (∀ cid2 c, ContactRepository.get_contact_by_id cid2 user contacts
        = some c → c.user_id = user.id)
    ∧ (ContactRepository.is_contact_exists email phone user contacts = true →
        ∃ c, c ∈ contacts ∧ c.user_id = user.id
          ∧ (c.email = email ∨ c.phone = phone))
    ∧ (∀ c cs2, ContactRepository.create_contact body user contacts
        = .ok (c, cs2) → c.user_id = user.id ∧ cs2 = contacts ++ [c])
    ∧ ContactRepository.get_contact_by_id cid user contacts = none
    ∧ ContactRepository.update_contact cid body user contacts
        = .ok (none, contacts)
    ∧ ContactRepository.remove_contact cid user contacts = (none, contacts)
    ∧ (∀ cid2 res cs2, ContactRepository.update_contact cid2 body user
        contacts = .ok (res, cs2) →
        ∀ c ∈ contacts, c.user_id ≠ user.id → c ∈ cs2)
    ∧ (∀ cid2 res cs2, ContactRepository.remove_contact cid2 user contacts
        = (res, cs2) → ∀ c ∈ contacts, c.user_id ≠ user.id → c ∈ cs2) := by
  have hnone : ContactRepository.get_contact_by_id cid user contacts = none := by
    apply List.find?_eq_none.mpr
    intro c hc
    simp only [Bool.and_eq_true, beq_iff_eq, not_and]
    intro h1
    exact hforeign c hc h1
  refine ⟨?_, ?_, ?_, ?_, ?_, hnone, ?_, ?_, ?_, ?_⟩
  · intro c hc
    have hc1 := List.take_subset _ _ hc
    have hc2 := List.drop_subset _ _ hc1
    have := (List.mem_filter.mp hc2).2
    simp only [Bool.and_eq_true, beq_iff_eq] at this
    exact this.1.1.1
  · intro c hc
    have hc1 := (mem_sortBy _ _ _).mp hc
    have := (List.mem_filter.mp hc1).2
    simp only [Bool.and_eq_true, beq_iff_eq] at this
    exact this.1
  · intro cid2 c hc
    have := List.find?_some hc
    simp only [Bool.and_eq_true, beq_iff_eq] at this
    exact this.2
  · intro h
    obtain ⟨c, hc, hp⟩ := List.any_eq_true.mp h
    simp only [Bool.and_eq_true, Bool.or_eq_true, beq_iff_eq] at hp
    exact ⟨c, hc, hp.1, hp.2⟩
  · intro c cs2 h
    unfold ContactRepository.create_contact at h
    split at h
    · exact absurd h (by simp)
    · injection h with h'
      injection h' with h1 h2
      subst h1
      subst h2
      exact ⟨rfl, rfl⟩
  · unfold ContactRepository.update_contact
    rw [hnone]
  · unfold ContactRepository.remove_contact
    rw [hnone]
  · intro cid2 res cs2 h c hc hcu
    unfold ContactRepository.update_contact at h
    split at h
    next heq =>
      injection h with h'
      injection h' with h1 h2
      subst h2
      exact hc
    next c0 heq =>
      dsimp only at h
      split at h
      · exact absurd h (by simp)
      · injection h with h'
        injection h' with h1 h2
        subst h2
        have hc0mem := List.mem_of_find?_eq_some heq
        have hc0p := List.find?_some heq
        simp only [Bool.and_eq_true, beq_iff_eq] at hc0p
        have hne : c ≠ c0 := by
          intro he
          rw [he] at hcu
          exact hcu hc0p.2
        have hid : c.id ≠ c0.id := id_injective_of_nodup hids hc hc0mem hne
        have himg : (fun x => if x.id == c0.id then
            { c0 with
                name := body.name
                surname := body.surname
                email := body.email
                phone := body.phone
                birthday := body.birthday
                info := body.info } else x) c = c := by
          simp [hid]
        rw [← himg]
        exact List.mem_map_of_mem _ hc
  · intro cid2 res cs2 h c hc hcu
    unfold ContactRepository.remove_contact at h
    split at h
    next heq =>
      injection h with h1 h2
      subst h2
      exact hc
    next c0 heq =>
      injection h with h1 h2
      subst h2
      have hc0mem := List.mem_of_find?_eq_some heq
      have hc0p := List.find?_some heq
      simp only [Bool.and_eq_true, beq_iff_eq] at hc0p
      have hne : c ≠ c0 := by
        intro he
        rw [he] at hcu
        exact hcu hc0p.2
      have hid : c.id ≠ c0.id := id_injective_of_nodup hids hc hc0mem hne
      refine List.mem_filter.mpr ⟨hc, ?_⟩
      simp [hid]

/-- Witness for the C2 theorem: `userA` acting on a table holding only
Bob's card owned by user 20, probing the id (1) of that foreign card. -/
theorem contact_directory_owner_scoped_witness :
    ContactRepository.get_contact_by_id 1 userA [bobContactOfB] = none
    ∧ ContactRepository.update_contact 1 bobBody userA [bobContactOfB]
        = .ok (none, [bobContactOfB])
    ∧ ContactRepository.remove_contact 1 userA [bobContactOfB]
        = (none, [bobContactOfB]) :=
  have h := contact_directory_owner_scoped userA [bobContactOfB]
    "" "" "" "" 0 100 1 7 bobBody dec28 (by decide) (by decide)
  ⟨h.2.2.2.2.2.1, h.2.2.2.2.2.2.1, h.2.2.2.2.2.2.2.1⟩

end Hw12
